import Mathlib

/-!
Shallow embedding of the causeway policy-evaluation and learning pipelines.

Sources embedded:
- `src/rule_agent.py`: `matches_patterns`, `check_regex_rules`, `find_semantic_rules`,
  `check_with_agent`, `check_rules_with_llm`, `ensure_rule_embedding`.
- `src/scripts/check_rules.py`: the `main` entrypoint decision (exit code and stderr).
- `src/learning_agent.py`: the change-application loop of `process_transcript` and `create_rule`.
- `src/brain_mcp.py`: the `add_rule` tool.

Modelling conventions:
- Python exceptions are modelled with `Except`: a function that can raise returns
  `Except Unit A` (or `Except String A` where the message matters), and a caught
  exception is a `.error` consumed at the catch site.
- Python regexes are modelled by the fragment the rules exercise: a pattern is either
  a plain literal (where `re.search` is substring search, and `re.IGNORECASE` lowercases
  both sides, exact for the ASCII data involved) or a syntactically invalid pattern
  (where `re.search` raises `re.error`).
- SQLite rows are modelled by structures mirroring the selected columns; a query is a
  filter over the rule table plus a stable descending sort for `ORDER BY priority DESC`.
- The embedding provider and the k-nearest-neighbour search of `rule_embeddings` are
  external services: their output (the list of `(rule_id, distance)` pairs the `MATCH`
  query returns) is a parameter of the evaluator.  Vector distances are modelled as
  rationals; the literals `0.8` and `0.5` from the source are `ratOf 4 5` and `ratOf 1 2`.
- The arbitration LLM is an oracle `LlmCall → RuleDecision`; the evaluator additionally
  returns the list of calls it issued so that call counts and payloads can be stated.
-/

/-- Python truthiness of an optional string (`None` and `""` are falsy). -/
def pyTruthy : Option String → Bool
  | none => false
  | some s => !(s == "")

/-- Python truthiness of an optional integer (`None` and `0` are falsy). -/
def natTruthy : Option Nat → Bool
  | none => false
  | some n => !(n == 0)

/-- Python `x or d` for an optional string `x`: the default wins on `None` and `""`. -/
def pyOrStr (x : Option String) (d : String) : String :=
  match x with
  | none => d
  | some s => if s = "" then d else s

/-- Python `"sep".join(xs)`. -/
def pyJoin (sep : String) : List String → String
  | [] => ""
  | [s] => s
  | s :: s2 :: rest => s ++ sep ++ pyJoin sep (s2 :: rest)

/-- Python `s[:n]` (slicing by code points). -/
def strTake (s : String) (n : Nat) : String := ⟨s.data.take n⟩

/-- Python `s.lower()` (exact for the ASCII data involved). -/
def lowerStr (s : String) : String := ⟨s.data.map Char.toLower⟩

/-- Substring occurrence on character lists. -/
def charsContain (needle hay : List Char) : Bool :=
  hay.tails.any (fun t => needle.isPrefixOf t)

/-- Case-sensitive `re.search` of a literal pattern: substring search. -/
def strContainsCS (hay needle : String) : Bool := charsContain needle.data hay.data

/-- Case-insensitive (`re.IGNORECASE`) `re.search` of a literal pattern. -/
def strContainsCI (hay needle : String) : Bool :=
  charsContain (needle.data.map Char.toLower) (hay.data.map Char.toLower)

/-- Python `s.split()`: split on whitespace runs, dropping empty pieces.
`splitWsAux cs acc` scans `cs` with the reversed current word in `acc`. -/
def splitWsAux : List Char → List Char → List String
  | [], acc => if acc.isEmpty then [] else [⟨acc.reverse⟩]
  | c :: cs, acc =>
    if c.isWhitespace then
      if acc.isEmpty then splitWsAux cs [] else (⟨acc.reverse⟩ : String) :: splitWsAux cs []
    else splitWsAux cs (c :: acc)

/-- Python `s.split()`. -/
def pyWords (s : String) : List String := splitWsAux s.data []

/-- Exception-propagating sequencing: a `match` on a value whose computation can raise,
where the `except` branch re-raises (i.e. plain Python control flow around a call). -/
def exBind {α β : Type} : Except Unit α → (α → Except Unit β) → Except Unit β
  | .error e, _ => .error e
  | .ok a, f => f a

/-- An exact rational `n / d` built without normalisation (kernel-computable). -/
def ratOf (n : Int) (d : Nat) (h1 : d ≠ 0 := by decide) (h2 : n.natAbs.Coprime d := by decide) : ℚ :=
  Rat.mk' n d h1 h2

/-- A regex pattern string, restricted to the fragment the rules exercise:
`lit s` is a pattern that `re` compiles and that matches exactly where `s` occurs as a
substring; `invalid` is a pattern on which `re.search` raises `re.error`. -/
inductive Pat where
  | lit (s : String)
  | invalid
deriving DecidableEq

/-- Python truthiness of the `pattern` column (`NULL` and `""` are falsy; an invalid
pattern string is non-empty, hence truthy). -/
def patTruthy : Option Pat → Bool
  | none => false
  | some (.lit s) => !(s == "")
  | some .invalid => true

/-- `re.search(p, tool_input[, re.IGNORECASE])` for the modelled pattern fragment. -/
def reSearch (p : Pat) (tool_input : String) (ignore_case : Bool) : Except Unit Bool :=
  match p with
  | .lit s => .ok (if ignore_case then strContainsCI tool_input s else strContainsCS tool_input s)
  | .invalid => .error ()

/-- The stored `patterns` column as seen through `json.loads`:
`noField` is `NULL`/`""` (falsy, short-circuits to no-match), `badJson` raises
`json.JSONDecodeError`, `jsonList ps` parses to a list, `jsonSingle p` parses to a
non-list value (which the code wraps into a one-element list). -/
inductive PatternsField where
  | noField
  | badJson
  | jsonList (ps : List Pat)
  | jsonSingle (p : Pat)
deriving DecidableEq

/-- The `for pattern in patterns` loop of `matches_patterns`: first match wins;
`re.error` aborts the loop (and is caught by the caller). -/
def searchLoop : List Pat → String → Except Unit Bool
  | [], _ => .ok false
  | p :: rest, tool_input =>
    match reSearch p tool_input true with
    | .error e => .error e
    | .ok true => .ok true
    | .ok false => searchLoop rest tool_input

/-- `rule_agent.matches_patterns`: parse the JSON pattern list and search each pattern
case-insensitively; `json.JSONDecodeError` and `re.error` are caught and yield `False`. -/
def matches_patterns (tool_input : String) (patterns_json : PatternsField) : Bool :=
  match patterns_json with
  | .noField => false
  | .badJson => false
  | .jsonList ps =>
    match searchLoop ps tool_input with
    | .error _ => false
    | .ok b => b
  | .jsonSingle p =>
    match searchLoop [p] tool_input with
    | .error _ => false
    | .ok b => b

/-- A row of the `rules` table (the columns the embedded code reads). -/
structure Rule where
  id : Nat
  type : String
  pattern : Option Pat
  patterns : PatternsField
  description : String
  problem : Option String := none
  solution : Option String := none
  tool : Option String := none
  action : String
  active : Bool := true
  priority : Int := 0
  llm_review : Bool := false
  prompt : Option String := none
  hard : Bool := false
deriving DecidableEq

/-- `(tool IS NULL OR tool = ?)`. -/
def toolOk (rule_tool : Option String) (tool_name : String) : Bool :=
  match rule_tool with
  | none => true
  | some t => t == tool_name

/-- Stable insertion step for `ORDER BY priority DESC`. -/
def insertPriorityDesc (r : Rule) : List Rule → List Rule
  | [] => [r]
  | x :: xs => if r.priority ≥ x.priority then r :: x :: xs else x :: insertPriorityDesc r xs

/-- Stable sort by descending priority. -/
def sortByPriorityDesc (l : List Rule) : List Rule := l.foldr insertPriorityDesc []

/-- The query of `check_regex_rules`: active regex rules scoped to the tool, ordered by
descending priority. -/
def regexRows (db : List Rule) (tool_name : String) : List Rule :=
  sortByPriorityDesc (db.filter (fun r => r.type == "regex" && r.active && toolOk r.tool tool_name))

/-- The match test of one loop iteration: the truthy single `pattern` column is tried first
with a case-sensitive `re.search` whose `re.error` propagates; otherwise (or on a
non-match) `matches_patterns` decides. -/
def rowMatched (row : Rule) (tool_input : String) : Except Unit Bool :=
  if patTruthy row.pattern then
    match row.pattern with
    | some p =>
      match reSearch p tool_input false with
      | .error e => .error e
      | .ok true => .ok true
      | .ok false => .ok (matches_patterns tool_input row.patterns)
    | none => .ok (matches_patterns tool_input row.patterns)
  else .ok (matches_patterns tool_input row.patterns)

/-- A directly-contributing matched rule, as collected by `check_regex_rules`. -/
structure MatchedRule where
  id : Nat
  description : String
  action : String
  solution : Option String
deriving DecidableEq

/-- A review-deferred match (the dict appended to `llm_review_needed`; note it carries
no `hard` key). -/
structure LlmReviewEntry where
  id : Nat
  description : String
  action : String
  prompt : Option String
  tool_input : String
deriving DecidableEq

/-- The row loop of `check_regex_rules`: collect all matches in evaluation order,
partitioned into direct matches and review-deferred matches; a propagating `re.error`
aborts the whole check. -/
def scanRows : List Rule → String → Except Unit (List MatchedRule × List LlmReviewEntry)
  | [], _ => .ok ([], [])
  | row :: rest, tool_input =>
    match rowMatched row tool_input with
    | .error e => .error e
    | .ok false => scanRows rest tool_input
    | .ok true =>
      match scanRows rest tool_input with
      | .error e => .error e
      | .ok (ms, ls) =>
        if row.llm_review then
          .ok (ms, { id := row.id, description := row.description, action := row.action,
                     prompt := row.prompt, tool_input := tool_input } :: ls)
        else
          .ok ({ id := row.id, description := row.description, action := row.action,
                 solution := row.solution } :: ms, ls)

/-- The message line for one contributing rule:
`[<KIND> #<id>] <description>` plus ` → <solution>` when the solution is truthy. -/
def ruleMsg (kind : String) (r : MatchedRule) : String :=
  "[" ++ kind ++ " #" ++ Nat.repr r.id ++ "] " ++ r.description ++
    (if pyTruthy r.solution then " → " ++ r.solution.getD "" else "")

/-- The `(passed, rejection_reason, action, rules_needing_llm_review)` tuple. -/
structure RegexResult where
  passed : Bool
  reason : Option String
  action : Option String
  llm_reviews : List LlmReviewEntry
deriving DecidableEq

/-- The combined-response block of `check_regex_rules` (lines 162-183): block lines
first, then warn lines; `action` is `block` iff some direct match blocks. -/
def combineMatches (ms : List MatchedRule) (ls : List LlmReviewEntry) : RegexResult :=
  if ms.isEmpty then ⟨true, none, none, ls⟩
  else
    let blocks := ms.filter (fun r => r.action == "block")
    let warns := ms.filter (fun r => r.action == "warn")
    let messages := blocks.map (ruleMsg "BLOCK") ++ warns.map (ruleMsg "WARN")
    let action := if blocks.isEmpty then "warn" else "block"
    ⟨false, some (pyJoin "\n" messages), some action, ls⟩

/-- `rule_agent.check_regex_rules`. -/
def check_regex_rules (db : List Rule) (tool_name tool_input : String) :
    Except Unit RegexResult :=
  exBind (scanRows (regexRows db tool_name) tool_input) (fun p => .ok (combineMatches p.1 p.2))

/-- The candidate dict built by `find_semantic_rules` (note it carries no `hard` key). -/
structure SemRule where
  id : Nat
  description : String
  problem : Option String
  solution : Option String
  action : String
  prompt : Option String
  distance : ℚ
  match_type : String
deriving DecidableEq

/-- The stop-word set of the keyword strategy. -/
def skipWords : List String :=
  ["a", "an", "the", "for", "to", "of", "in", "on", "with", "use", "always", "never"]

/-- The keyword test: some lowercased description word outside the stop-word set also
occurs among the lowercased input words (`desc_keywords & input_words` non-empty). -/
def keywordOverlap (description tool_input : String) : Bool :=
  let desc_keywords := (pyWords (lowerStr description)).filter (fun w => !(skipWords.contains w))
  let input_words := pyWords (lowerStr tool_input)
  desc_keywords.any (fun w => input_words.contains w)

/-- The candidate dict with the given distance and provenance. -/
def mkSemEntry (r : Rule) (dist : ℚ) (mt : String) : SemRule :=
  { id := r.id, description := r.description, problem := r.problem, solution := r.solution,
    action := r.action, prompt := r.prompt, distance := dist, match_type := mt }

/-- `rule_agent.find_semantic_rules`.  `vec_results` is the `(rule_id, distance)` list
the `rule_embeddings ... MATCH` k-NN query returns for the embedded input (an external
service); the WHERE conditions of the join on the rule row are re-checked here.  Keyword
candidates come first (dict insertion order) with the `0.5` placeholder distance;
vector candidates are appended unless the id is already present. -/
def find_semantic_rules (db : List Rule) (vec_results : List (Nat × ℚ))
    (tool_name tool_input : String) : List SemRule :=
  let rows := db.filter (fun r => r.active && r.type == "semantic" && toolOk r.tool tool_name)
  let keyword_entries := rows.filterMap (fun r =>
    if keywordOverlap r.description tool_input then some (mkSemEntry r (ratOf 1 2) "keyword")
    else none)
  let vector_entries := vec_results.foldl (fun acc p =>
    match rows.find? (fun r => r.id == p.1) with
    | some r =>
      if (keyword_entries ++ acc).any (fun e => e.id == p.1) then acc
      else acc ++ [mkSemEntry r p.2 "vector"]
    | none => acc) []
  keyword_entries ++ vector_entries

/-- The close-candidate test of `check_with_agent` (line 329) and `check_semantic_rules`
(line 292): r.get("match_type") == "keyword" or (r["distance"] and r["distance"] < 0.8).
Python float truthiness makes a distance of exactly `0.0` falsy. -/
def isClose (r : SemRule) : Bool :=
  r.match_type == "keyword" || (!(r.distance == 0) && decide (r.distance < ratOf 4 5))

/-- An entry of `all_rules_for_llm` in `check_with_agent`. -/
structure LlmRule where
  id : Nat
  description : String
  action : String
  prompt : Option String
  problem : Option String
  solution : Option String
  hard : Bool
  source : String
deriving DecidableEq

/-- The `all_rules_for_llm` entry built from a review-deferred regex match.
`hard := false` models r.get("hard", 0): the dict built by `check_regex_rules` has no
hard key (its SQL query does not select the `hard` column), so the default 0 is
always taken. -/
def toLlmRuleRegex (r : LlmReviewEntry) : LlmRule :=
  { id := r.id, description := r.description, action := r.action, prompt := r.prompt,
    problem := none, solution := none, hard := false, source := "regex+llm" }

/-- The `all_rules_for_llm` entry built from a close semantic candidate.
`hard := false` models r.get("hard", 0): the dict built by `find_semantic_rules` has
no hard key (its queries do not select the `hard` column). -/
def toLlmRuleSem (r : SemRule) : LlmRule :=
  { id := r.id, description := r.description, action := r.action, prompt := r.prompt,
    problem := r.problem, solution := r.solution, hard := false, source := "semantic" }

/-- One rule as presented in the arbitration prompt line
`- [<HARD|SOFT>] #<id> (<action>): <description[:80]>[ → <solution[:60]>]`. -/
structure PresentedRule where
  hard_label : String
  id : Nat
  action : String
  desc_trunc : String
  sol_trunc : Option String
deriving DecidableEq

/-- The label is "HARD" when the forwarded dict has a truthy hard key and "SOFT"
otherwise, together with the truncations of the prompt line of `check_rules_with_llm`. -/
def presentRule (r : LlmRule) : PresentedRule :=
  { hard_label := if r.hard then "HARD" else "SOFT",
    id := r.id, action := r.action,
    desc_trunc := strTake r.description 80,
    sol_trunc := if pyTruthy r.solution then some (strTake (r.solution.getD "") 60) else none }

/-- The payload of one arbitration call to the LLM structured-output service. -/
structure LlmCall where
  tool_name : String
  input_trunc : String
  justification : Option String
  rules : List PresentedRule
deriving DecidableEq

/-- The structured output `RuleDecision(approved, action, comment)`. -/
structure RuleDecision where
  approved : Bool
  action : String
  comment : String
deriving DecidableEq

/-- `rule_agent.check_rules_with_llm`: truncate to the first 5 rules, build the compact
prompt (input truncated to 800 chars, justification to 200 when truthy), and issue
exactly one call to the LLM oracle.  Returns the decision together with the singleton
list of calls issued. -/
def check_rules_with_llm (oracle : LlmCall → RuleDecision) (rules : List LlmRule)
    (tool_name tool_input : String) (justification : Option String) :
    RuleDecision × List LlmCall :=
  let rules5 := rules.take 5
  let call : LlmCall :=
    { tool_name := tool_name,
      input_trunc := strTake tool_input 800,
      justification := if pyTruthy justification then some (strTake (justification.getD "") 200)
                       else none,
      rules := rules5.map presentRule }
  (oracle call, [call])

/-- `rule_agent.check_with_agent`: regex rules first (their direct combined result
short-circuits everything), then the close semantic candidates, then — only if some
rule needs LLM review — a single consolidated arbitration call.  The second component
lists the LLM calls issued. -/
def check_with_agent (db : List Rule) (vec_results : List (Nat × ℚ))
    (oracle : LlmCall → RuleDecision) (tool_name tool_input : String)
    (justification : Option String) : Except Unit (RuleDecision × List LlmCall) :=
  exBind (check_regex_rules db tool_name tool_input) (fun res =>
    if !res.passed then
      .ok ({ approved := false, action := pyOrStr res.action "block",
             comment := pyOrStr res.reason "Blocked" }, [])
    else
      let close_semantic := (find_semantic_rules db vec_results tool_name tool_input).filter isClose
      let all_rules_for_llm := res.llm_reviews.map toLlmRuleRegex ++ close_semantic.map toLlmRuleSem
      if all_rules_for_llm.isEmpty then
        .ok ({ approved := true, action := "allow", comment := "No rules to check" }, [])
      else
        .ok (check_rules_with_llm oracle all_rules_for_llm tool_name tool_input justification))

/-- The observable outcome of `scripts/check_rules.py main`: the process exit code and
the lines printed to stderr. -/
structure HookOutcome where
  exitCode : Nat
  stderrLines : List String
deriving DecidableEq

/-- `scripts/check_rules.py main`, lines 89-127: the whole evaluation (embedding sync,
semantic search, arbitration) runs inside one `try`; any exception `e` is caught and
turned into `BLOCKED: Rule check error: <e>` with exit code 2; otherwise the
action of the decision selects block (exit 2), warn (exit 2 with an override hint) or allow (exit 0). -/
def mainOutcome (eval_result : Except String RuleDecision) : HookOutcome :=
  match eval_result with
  | .error e => { exitCode := 2, stderrLines := ["BLOCKED: Rule check error: " ++ e] }
  | .ok d =>
    if d.action == "block" then
      { exitCode := 2,
        stderrLines := ["BLOCKED: " ++ d.comment,
                        "This is a hard rule and cannot be overridden."] }
    else if d.action == "warn" then
      { exitCode := 2,
        stderrLines := ["SUGGESTION: " ++ d.comment,
                        "To override: start your description with \x27OVERRIDE:\x27 followed by justification."] }
    else { exitCode := 0, stderrLines := [] }

/-- The pydantic `RuleChange` proposal of `learning_agent.py`. -/
structure RuleChange where
  action : String
  rule_id : Option Nat := none
  type : Option String := none
  pattern : Option String := none
  patterns : Option String := none
  description : Option String := none
  problem : Option String := none
  solution : Option String := none
  tool : Option String := none
  rule_action : Option String := none
  reason : String := ""
  llm_review : Option Bool := none
  prompt : Option String := none
deriving DecidableEq

/-- The argument dict `create_rule` assembles for the `add_rule` MCP tool. -/
structure AddRuleArgs where
  type : String
  description : String
  action : String
  pattern : Option String
  patterns : Option String
  problem : Option String
  solution : Option String
  tool : Option String
  llm_review : Option Bool
  prompt : Option String
  source_session_id : Option Nat
deriving DecidableEq

/-- The argument dict `update_rule` assembles (`is not None` fields only). -/
structure UpdateRuleArgs where
  pattern : Option String
  patterns : Option String
  description : Option String
  problem : Option String
  solution : Option String
  action : Option String
  llm_review : Option Bool
  prompt : Option String
deriving DecidableEq

/-- `if x: args[key] = x` — a key is present only when the value is truthy. -/
def optTruthy (o : Option String) : Option String := if pyTruthy o then o else none

/-- `learning_agent.create_rule`: assemble the `add_rule` arguments (truthy string
fields only; `llm_review` when not `None`; `source_session_id` when not `None`). -/
def create_rule (rule_type description : String) (pattern patterns problem solution tool :
    Option String) (action : String) (llm_review : Option Bool) (prompt : Option String)
    (source_session_id : Option Nat) : AddRuleArgs :=
  { type := rule_type, description := description, action := action,
    pattern := optTruthy pattern, patterns := optTruthy patterns,
    problem := optTruthy problem, solution := optTruthy solution, tool := optTruthy tool,
    llm_review := llm_review, prompt := optTruthy prompt,
    source_session_id := source_session_id }

/-- `learning_agent.update_rule`: assemble the `update_rule` arguments. -/
def update_rule_args (change : RuleChange) : UpdateRuleArgs :=
  { pattern := change.pattern, patterns := change.patterns, description := change.description,
    problem := change.problem, solution := change.solution, action := change.rule_action,
    llm_review := change.llm_review, prompt := change.prompt }

/-- One rule mutation submitted to the MCP layer. -/
inductive MutationOp where
  | create (args : AddRuleArgs)
  | update (rule_id : Nat) (args : UpdateRuleArgs)
  | delete (rule_id : Nat)
deriving DecidableEq

/-- The per-proposal dispatch of `process_transcript` (lines 303-344): `create` builds
the `create_rule` call with `change.type or "semantic"`, `change.rule_action or "warn"`
and the session id; `update`/`delete` require a truthy `rule_id`; anything else is
silently skipped. -/
def proposalOp (change : RuleChange) (session_id : Option Nat) : Option MutationOp :=
  if lowerStr change.action = "create" then
    some (.create (create_rule (pyOrStr change.type "semantic") (pyOrStr change.description "")
      change.pattern change.patterns change.problem change.solution change.tool
      (pyOrStr change.rule_action "warn") change.llm_review change.prompt session_id))
  else if lowerStr change.action = "update" ∧ natTruthy change.rule_id = true then
    some (.update (change.rule_id.getD 0) (update_rule_args change))
  else if lowerStr change.action = "delete" ∧ natTruthy change.rule_id = true then
    some (.delete (change.rule_id.getD 0))
  else none

/-- A row of the `rules` table as written by `add_rule` (raw stored text fields). -/
structure StoredRule where
  id : Nat
  type : String
  pattern : Option String
  patterns : Option String
  description : String
  problem : Option String
  solution : Option String
  tool : Option String
  action : String
  priority : Int
  llm_review : Bool
  prompt : Option String
  source_session_id : Option Nat
deriving DecidableEq

/-- The rule store as the learning pipeline sees it: the `rules` table, the
`rule_embeddings` table (each entry records the text that was embedded), and the next
`INTEGER PRIMARY KEY` to be assigned. -/
structure Store where
  rules : List StoredRule
  embeddings : List (Nat × String)
  nextId : Nat
deriving DecidableEq

/-- `rule_agent.ensure_rule_embedding`: return early if an embedding row exists,
otherwise generate one (recorded here as the embedded text) and insert it. -/
def ensure_rule_embedding (st : Store) (rule_id : Nat) (text : String) : Store :=
  if st.embeddings.any (fun p => p.1 == rule_id) then st
  else { st with embeddings := st.embeddings ++ [(rule_id, text)] }

/-- `brain_mcp.add_rule`: insert the row (priority 0, `llm_review` from truthiness),
then ensure an embedding for `description [+ problem] [+ solution]`; returns the new
store and the result text. -/
def add_rule (st : Store) (args : AddRuleArgs) : Store × String :=
  let rule_id := st.nextId
  let row : StoredRule :=
    { id := rule_id, type := args.type, pattern := args.pattern, patterns := args.patterns,
      description := args.description, problem := args.problem, solution := args.solution,
      tool := args.tool, action := args.action, priority := 0,
      llm_review := args.llm_review == some true, prompt := args.prompt,
      source_session_id := args.source_session_id }
  let embed_text := args.description
      ++ (if pyTruthy args.problem then " Problem: " ++ args.problem.getD "" else "")
      ++ (if pyTruthy args.solution then " Solution: " ++ args.solution.getD "" else "")
  let st2 : Store := { st with rules := st.rules ++ [row], nextId := rule_id + 1 }
  (ensure_rule_embedding st2 rule_id embed_text, "Rule added with ID: " ++ Nat.repr rule_id)

/-- The created/updated/deleted counters of the learning run. -/
structure LearnStats where
  created : Nat
  updated : Nat
  deleted : Nat
deriving DecidableEq

/-- The post-success counter bump of `process_transcript`. -/
def bumpStats (op : MutationOp) (s : LearnStats) : LearnStats :=
  match op with
  | .create _ => { s with created := s.created + 1 }
  | .update _ _ => { s with updated := s.updated + 1 }
  | .delete _ => { s with deleted := s.deleted + 1 }

/-- What one run of the change-application loop produced. -/
structure ApplyResult where
  results : List String
  stats : LearnStats
  attempted : List MutationOp
  store : Store
deriving DecidableEq

/-- The change-application loop of `process_transcript` (lines 302-348), over an
executor `step` that performs one mutation against the store and either returns the
MCP result text or raises.  The per-change `try/except` turns an exception into an
`Error: <e>` result line and continues with the next proposal. -/
def process_changes (step : Store → MutationOp → Store × Except String String) :
    Store → List RuleChange → Option Nat → ApplyResult
  | st, [], _ => { results := [], stats := ⟨0, 0, 0⟩, attempted := [], store := st }
  | st, c :: cs, sid =>
    match proposalOp c sid with
    | none => process_changes step st cs sid
    | some op =>
      match step st op with
      | (st2, .ok txt) =>
        let rest := process_changes step st2 cs sid
        { results := txt :: rest.results, stats := bumpStats op rest.stats,
          attempted := op :: rest.attempted, store := rest.store }
      | (st2, .error e) =>
        let rest := process_changes step st2 cs sid
        { results := ("Error: " ++ e) :: rest.results, stats := rest.stats,
          attempted := op :: rest.attempted, store := rest.store }

/-- Oracle used by the concrete evaluation scenarios. -/
def demoOracle : LlmCall → RuleDecision := fun _ => ⟨true, "allow", "demo"⟩

/-- A hard rule deferred to LLM review (concrete scenario for the hard/soft tagging). -/
def demoDb5 : List Rule :=
  [{ id := 7, type := "regex", pattern := some (Pat.lit "rm -rf"), patterns := .noField,
     description := "no recursive delete", action := "block", llm_review := true,
     prompt := some "check the target path", hard := true }]

/-- A semantic rule with no keyword overlap with the scenario input. -/
def demoDb6 : List Rule :=
  [{ id := 5, type := "semantic", pattern := none, patterns := .noField,
     description := "database migrations forbidden", action := "warn" }]

/-- The candidate `find_semantic_rules` builds for `demoDb6` at vector distance 0. -/
def demoSem6 : SemRule :=
  { id := 5, description := "database migrations forbidden", problem := none, solution := none,
    action := "warn", prompt := none, distance := 0, match_type := "vector" }

/-- A rule storing the pattern `pip` in the legacy single `pattern` column. -/
def pipRuleSingle : Rule :=
  { id := 3, type := "regex", pattern := some (Pat.lit "pip"), patterns := .noField,
    description := "use uv instead of pip", action := "warn", solution := some "uv add" }

/-- A rule whose single `pattern` column holds an invalid regex. -/
def invalidSingleRule : Rule :=
  { id := 11, type := "regex", pattern := some Pat.invalid, patterns := .noField,
    description := "broken regex", action := "block" }

/-- A rule whose `patterns` column holds malformed JSON. -/
def badPatternsRule : Rule :=
  { id := 12, type := "regex", pattern := none, patterns := .badJson,
    description := "broken pattern list", action := "block" }

/-- Two directly matching rules, one block and one warn (concrete scenario). -/
def demoDb2 : List Rule :=
  [{ id := 1, type := "regex", pattern := some (Pat.lit "rm"), patterns := .noField,
     description := "no rm", action := "block", solution := some "use trash-cli" },
   { id := 2, type := "regex", pattern := some (Pat.lit "-rf"), patterns := .noField,
     description := "no recursive force", action := "warn", solution := some "delete selectively" }]

/-- The matched rules `check_regex_rules` collects from `demoDb2` on `rm -rf /`. -/
def demoMs2 : List MatchedRule :=
  [{ id := 1, description := "no rm", action := "block", solution := some "use trash-cli" },
   { id := 2, description := "no recursive force", action := "warn",
     solution := some "delete selectively" }]

/-- One review-deferred rule (concrete scenario for arbitration). -/
def demoDb4 : List Rule :=
  [{ id := 4, type := "regex", pattern := some (Pat.lit "curl"), patterns := .noField,
     description := "network fetch needs review", action := "warn", llm_review := true,
     prompt := some "check the url" }]

/-- The review entry `check_regex_rules` collects from `demoDb4`. -/
def demoLs4 : List LlmReviewEntry :=
  [{ id := 4, description := "network fetch needs review", action := "warn",
     prompt := some "check the url", tool_input := "curl http://example.com" }]

/-- A single matching rule whose action is `log` (concrete scenario). -/
def demoDb10 : List Rule :=
  [{ id := 9, type := "regex", pattern := some (Pat.lit "echo"), patterns := .noField,
     description := "audit echo usage", action := "log" }]

/-- The matched rule `check_regex_rules` collects from `demoDb10` on `echo hi`. -/
def demoMs10 : List MatchedRule :=
  [{ id := 9, description := "audit echo usage", action := "log", solution := none }]

/-- An executor on which every rule mutation raises (concrete fault scenario). -/
def demoFailStep : Store → MutationOp → Store × Except String String :=
  fun st _ => (st, .error "db locked")

/-- An empty rule store (concrete scenario for the Learning Applier). -/
def demoStore9 : Store := { rules := [], embeddings := [], nextId := 1 }

/-- A `create` proposal with `type` and `rule_action` unset. -/
def demoChange9 : RuleChange := { action := "create", description := some "always use uv" }

/-- A `delete` proposal following `demoChange9` in the proposal list. -/
def demoDel9 : RuleChange := { action := "delete", rule_id := some 3 }

/-- The `add_rule` arguments `proposalOp` assembles for `demoChange9` in session 42. -/
def demoArgs9 : AddRuleArgs :=
  { type := "semantic", description := "always use uv", action := "warn", pattern := none,
    patterns := none, problem := none, solution := none, tool := none, llm_review := none,
    prompt := none, source_session_id := some 42 }

theorem data_append (s t : String) : (s ++ t).data = s.data ++ t.data := by
  cases s; cases t; rfl

theorem str_ext (s t : String) (h : s.data = t.data) : s = t := by
  cases s; cases t; cases h; rfl

theorem str_append_assoc (a b c : String) : (a ++ b) ++ c = a ++ (b ++ c) := by
  apply str_ext
  simp [data_append]

theorem ne_empty_left (s t : String) (h : s ≠ "") : s ++ t ≠ "" := by
  intro he
  apply h
  have hd : s.data ++ t.data = [] := by
    have := congrArg String.data he
    rwa [data_append] at this
  apply str_ext
  exact (List.append_eq_nil.mp hd).1

theorem pyJoin_ne_empty (sep m : String) (rest : List String) (h : m ≠ "") :
    pyJoin sep (m :: rest) ≠ "" := by
  cases rest with
  | nil => simpa [pyJoin] using h
  | cons b l =>
    simp only [pyJoin]
    exact ne_empty_left _ _ (ne_empty_left _ _ h)

theorem ruleMsg_ne_empty (k : String) (r : MatchedRule) : ruleMsg k r ≠ "" := by
  unfold ruleMsg
  repeat apply ne_empty_left
  decide

theorem pyOrStr_some_ne (s d : String) (h : s ≠ "") : pyOrStr (some s) d = s := by
  simp [pyOrStr, h]

theorem map_congr_mem {α β : Type} (l : List α) (f g : α → β) (h : ∀ a ∈ l, f a = g a) :
    l.map f = l.map g := by
  induction l with
  | nil => rfl
  | cons a t ih =>
    simp only [List.map_cons]
    rw [h a (by simp), ih (fun x hx => h x (by simp [hx]))]

theorem ruleMsg_eq_of_sol (k : String) (r : MatchedRule) (h : pyTruthy r.solution = true) :
    ruleMsg k r = "[" ++ k ++ " #" ++ Nat.repr r.id ++ "] " ++ r.description ++ " → "
      ++ r.solution.getD "" := by
  unfold ruleMsg
  rw [if_pos h, ← str_append_assoc]

theorem blockPre : ("[" : String) ++ "BLOCK" ++ " #" = "[BLOCK #" := rfl

theorem warnPre : ("[" : String) ++ "WARN" ++ " #" = "[WARN #" := rfl

theorem check_regex_rules_eq (db : List Rule) (tool_name tool_input : String)
    (ms : List MatchedRule) (ls : List LlmReviewEntry)
    (h : scanRows (regexRows db tool_name) tool_input = .ok (ms, ls)) :
    check_regex_rules db tool_name tool_input = .ok (combineMatches ms ls) := by
  unfold check_regex_rules
  rw [h]
  rfl

theorem combineMatches_ne (ms : List MatchedRule) (ls : List LlmReviewEntry) (h : ms ≠ []) :
    combineMatches ms ls =
      ⟨false,
       some (pyJoin "\n" ((ms.filter (fun r => r.action == "block")).map (ruleMsg "BLOCK")
         ++ (ms.filter (fun r => r.action == "warn")).map (ruleMsg "WARN"))),
       some (if (ms.filter (fun r => r.action == "block")).isEmpty then "warn" else "block"),
       ls⟩ := by
  cases ms with
  | nil => exact absurd rfl h
  | cons a t => rfl

theorem check_with_agent_passed (db : List Rule) (vec_results : List (Nat × ℚ))
    (oracle : LlmCall → RuleDecision) (tool_name tool_input : String)
    (justification : Option String) (ls : List LlmReviewEntry)
    (hscan : scanRows (regexRows db tool_name) tool_input = .ok ([], ls)) :
    check_with_agent db vec_results oracle tool_name tool_input justification =
      (if (ls.map toLlmRuleRegex
            ++ ((find_semantic_rules db vec_results tool_name tool_input).filter isClose).map
                toLlmRuleSem).isEmpty then
        .ok (⟨true, "allow", "No rules to check"⟩, [])
      else
        .ok (check_rules_with_llm oracle
          (ls.map toLlmRuleRegex
            ++ ((find_semantic_rules db vec_results tool_name tool_input).filter isClose).map
                toLlmRuleSem) tool_name tool_input justification)) := by
  have hreg := check_regex_rules_eq db tool_name tool_input [] ls hscan
  unfold check_with_agent
  rw [hreg]
  rfl

theorem messages_ne_empty (ms : List MatchedRule) (hms : ms ≠ [])
    (hact : ∀ r ∈ ms, r.action = "block" ∨ r.action = "warn") :
    pyJoin "\n" ((ms.filter (fun r => r.action == "block")).map (ruleMsg "BLOCK")
      ++ (ms.filter (fun r => r.action == "warn")).map (ruleMsg "WARN")) ≠ "" := by
  rcases List.exists_mem_of_ne_nil ms hms with ⟨r, hr⟩
  rcases hbe : ms.filter (fun r => r.action == "block") with _ | ⟨c, cs⟩
  · have hrw : r.action = "warn" := by
      rcases hact r hr with h1 | h1
      · exfalso
        have hmem : r ∈ ms.filter (fun r => r.action == "block") :=
          List.mem_filter.mpr ⟨hr, by simp [h1]⟩
        rw [hbe] at hmem
        simp at hmem
      · exact h1
    have hmem : r ∈ ms.filter (fun r => r.action == "warn") :=
      List.mem_filter.mpr ⟨hr, by simp [hrw]⟩
    rcases hwe : ms.filter (fun r => r.action == "warn") with _ | ⟨c2, cs2⟩
    · rw [hwe] at hmem
      simp at hmem
    · rw [hbe, hwe]
      simp only [List.map_nil, List.nil_append, List.map_cons]
      exact pyJoin_ne_empty "\n" _ _ (ruleMsg_ne_empty "WARN" c2)
  · rw [hbe]
    simp only [List.map_cons, List.cons_append]
    exact pyJoin_ne_empty "\n" _ _ (ruleMsg_ne_empty "BLOCK" c)

/-- C1: whenever the evaluation (embedding lookup, LLM arbitration, or anything else
inside the try of `main`) raises an exception, the entrypoint blocks: exit code 2
(non-zero), with a stderr line identifying a rule-check internal error — never a silent
allow. -/
theorem claim_C1 (e : String) :
    mainOutcome (.error e)
      = { exitCode := 2, stderrLines := ["BLOCKED: Rule check error: " ++ e] }
    ∧ (mainOutcome (.error e)).exitCode ≠ 0 := by
  refine ⟨rfl, ?_⟩
  show (2 : Nat) ≠ 0
  decide

/-- C3: if no pattern rule matches directly, no pattern match is deferred to review,
and no close semantic candidate exists, the evaluator returns approved with action
allow and issues no LLM arbitration call at all. -/
theorem claim_C3 (db : List Rule) (vec_results : List (Nat × ℚ))
    (oracle : LlmCall → RuleDecision) (tool_name tool_input : String)
    (justification : Option String)
    (hscan : scanRows (regexRows db tool_name) tool_input = .ok ([], []))
    (hclose : (find_semantic_rules db vec_results tool_name tool_input).filter isClose = []) :
    check_with_agent db vec_results oracle tool_name tool_input justification
      = .ok (⟨true, "allow", "No rules to check"⟩, []) := by
  rw [check_with_agent_passed db vec_results oracle tool_name tool_input justification [] hscan]
  rw [hclose]
  rfl

/-- C4: whenever arbitration is triggered, exactly one LLM call is issued for the whole
candidate set; its rule list is the review-deferred pattern matches first (in
evaluation order), then the close semantic candidates, truncated to at most 5 rules. -/
theorem claim_C4 (db : List Rule) (vec_results : List (Nat × ℚ))
    (oracle : LlmCall → RuleDecision) (tool_name tool_input : String)
    (justification : Option String) (ls : List LlmReviewEntry)
    (hscan : scanRows (regexRows db tool_name) tool_input = .ok ([], ls))
    (hne : ls ≠ [] ∨ (find_semantic_rules db vec_results tool_name tool_input).filter isClose ≠ []) :
    ∃ c : LlmCall,
      check_with_agent db vec_results oracle tool_name tool_input justification
        = .ok (oracle c, [c])
      ∧ c.rules = ((ls.map toLlmRuleRegex
          ++ ((find_semantic_rules db vec_results tool_name tool_input).filter isClose).map
              toLlmRuleSem).take 5).map presentRule
      ∧ c.rules.length ≤ 5 := by
  have hiE : (ls.map toLlmRuleRegex
      ++ ((find_semantic_rules db vec_results tool_name tool_input).filter isClose).map
          toLlmRuleSem).isEmpty = false := by
    rcases hall : ls.map toLlmRuleRegex
        ++ ((find_semantic_rules db vec_results tool_name tool_input).filter isClose).map
            toLlmRuleSem with _ | ⟨c, cs⟩
    · exfalso
      rcases List.append_eq_nil.mp hall with ⟨h1, h2⟩
      rcases hne with h | h
      · exact h (List.map_eq_nil_iff.mp h1)
      · exact h (List.map_eq_nil_iff.mp h2)
    · rfl
  rw [check_with_agent_passed db vec_results oracle tool_name tool_input justification ls hscan]
  rw [hiE]
  refine ⟨_, rfl, rfl, ?_⟩
  simp [check_rules_with_llm, List.length_take]

/-- C10: if every directly matching pattern rule has action log, the evaluator still
rejects with approved false and action warn, and the comment is the generic fallback
`Blocked`, naming no rule ids. -/
theorem claim_C10 (db : List Rule) (vec_results : List (Nat × ℚ))
    (oracle : LlmCall → RuleDecision) (tool_name tool_input : String)
    (justification : Option String) (ms : List MatchedRule) (ls : List LlmReviewEntry)
    (hscan : scanRows (regexRows db tool_name) tool_input = .ok (ms, ls))
    (hms : ms ≠ [])
    (hlog : ∀ r ∈ ms, r.action = "log") :
    check_with_agent db vec_results oracle tool_name tool_input justification
      = .ok (⟨false, "warn", "Blocked"⟩, []) := by
  have hreg := check_regex_rules_eq db tool_name tool_input ms ls hscan
  rw [combineMatches_ne ms ls hms] at hreg
  have hbe : ms.filter (fun r => r.action == "block") = [] := by
    apply List.filter_eq_nil_iff.mpr
    intro a ha
    rw [hlog a ha]
    decide
  have hwe : ms.filter (fun r => r.action == "warn") = [] := by
    apply List.filter_eq_nil_iff.mpr
    intro a ha
    rw [hlog a ha]
    decide
  rw [hbe, hwe] at hreg
  unfold check_with_agent
  rw [hreg]
  rfl

/-- C7 counterexample: a rule storing `pip` in the single `pattern` column does NOT
match `PIP install x` (the single-pattern branch passes no `re.IGNORECASE`), and the
whole evaluation allows; the same pattern in the `patterns` list does match. -/
theorem claim_C7_counterexample :
    rowMatched pipRuleSingle "PIP install x" = .ok false
    ∧ check_with_agent [pipRuleSingle] [] demoOracle "Bash" "PIP install x" none
        = .ok (⟨true, "allow", "No rules to check"⟩, [])
    ∧ matches_patterns "PIP install x" (PatternsField.jsonList [Pat.lit "pip"]) = true := by
  exact ⟨rfl, rfl, rfl⟩

/-- C7 (amended): matching via the `patterns` list is case-insensitive (it is exactly
case-insensitive substring containment for a literal pattern, so `pip` matches
`PIP install x`), but a pattern stored in the legacy single `pattern` column is matched
case-sensitively: it matches `pip install x` and not `PIP install x`. -/
theorem claim_C7 :
    (∀ p tool_input : String,
      matches_patterns tool_input (PatternsField.jsonList [Pat.lit p])
        = strContainsCI tool_input p)
    ∧ matches_patterns "PIP install x" (PatternsField.jsonList [Pat.lit "pip"]) = true
    ∧ rowMatched pipRuleSingle "pip install x" = .ok true
    ∧ rowMatched pipRuleSingle "PIP install x" = .ok false := by
  refine ⟨?_, rfl, rfl, rfl⟩
  intro p tool_input
  cases h : strContainsCI tool_input p <;>
    simp [matches_patterns, searchLoop, reSearch, h]

/-- C8 counterexample: a rule whose single `pattern` column is an invalid regex makes
`re.search` raise, and the exception escapes `check_regex_rules` (and the whole
evaluator) — contradicting the claim that no exception escapes the Pattern Matcher
because of a malformed rule. -/
theorem claim_C8_counterexample :
    check_regex_rules [invalidSingleRule] "Bash" "ls -la" = .error ()
    ∧ check_with_agent [invalidSingleRule] [] demoOracle "Bash" "ls -la" none = .error () := by
  exact ⟨rfl, rfl⟩

/-- C8 (amended): a malformed `patterns` list (invalid JSON, or an invalid regex hit
before any match) is treated as rule-does-not-match, no exception escapes because of
it, and the remaining rules are scanned exactly as without it; but an invalid regex in
the legacy single `pattern` column raises out of the Pattern Matcher (surfacing as the
entrypoint fail-closed block). -/
theorem claim_C8 :
    (∀ tool_input : String, matches_patterns tool_input PatternsField.badJson = false)
    ∧ (∀ tool_input : String,
        matches_patterns tool_input (PatternsField.jsonList [Pat.invalid]) = false)
    ∧ (∀ (rest : List Rule) (tool_input : String),
        scanRows (badPatternsRule :: rest) tool_input = scanRows rest tool_input)
    ∧ (∀ (rest : List Rule) (tool_input : String),
        scanRows (invalidSingleRule :: rest) tool_input = .error ()) := by
  exact ⟨fun _ => rfl, fun _ => rfl, fun _ _ => rfl, fun _ _ => rfl⟩

/-- C5: the claim fails on the code — the `hard` column is never selected by the
queries behind `check_regex_rules` and `find_semantic_rules`, so r.get("hard", 0) is
always 0 and every rule forwarded to arbitration is tagged SOFT; concretely, a store
rule with `hard = 1` that reaches arbitration is presented as `[SOFT]`. -/
theorem claim_C5 :
    (∀ r : LlmReviewEntry, (toLlmRuleRegex r).hard = false)
    ∧ (∀ s : SemRule, (toLlmRuleSem s).hard = false)
    ∧ ∃ c : LlmCall,
        check_with_agent demoDb5 [] demoOracle "Bash" "rm -rf /tmp" none
          = .ok (demoOracle c, [c])
        ∧ c.rules.map (fun p => p.hard_label) = ["SOFT"]
        ∧ demoDb5.all (fun r => r.hard) = true := by
  exact ⟨fun _ => rfl, fun _ => rfl, ⟨_, rfl, rfl, rfl⟩⟩

/-- C6: the claim fails on the code at distance exactly 0 — the truthiness guard in
r.get("match_type") == "keyword" or (r["distance"] and r["distance"] < 0.8) makes a
vector candidate with distance 0.0 falsy, so it is not forwarded although 0 < 0.8, and
an evaluation whose only candidate it is degrades to allow. -/
theorem claim_C6 :
    find_semantic_rules demoDb6 [(5, 0)] "Bash" "rm -rf /data" = [demoSem6]
    ∧ demoSem6.distance = 0
    ∧ demoSem6.distance < ratOf 4 5
    ∧ demoSem6.match_type = "vector"
    ∧ isClose demoSem6 = false
    ∧ check_with_agent demoDb6 [(5, 0)] demoOracle "Bash" "rm -rf /data" none
        = .ok (⟨true, "allow", "No rules to check"⟩, []) := by
  refine ⟨rfl, rfl, by decide, rfl, rfl, rfl⟩

/-- C2: when directly-contributing matched pattern rules exist (all of action block or
warn, each with a truthy solution), the evaluator rejects; a block match forces action
block regardless of warn matches, warn-only matches give action warn, and the comment
lists the block rules first, then the warn rules, one line per contributing rule
formatted `[<ACTION> #<id>] <description> → <solution>`. -/
theorem claim_C2 (db : List Rule) (vec_results : List (Nat × ℚ))
    (oracle : LlmCall → RuleDecision) (tool_name tool_input : String)
    (justification : Option String) (ms : List MatchedRule) (ls : List LlmReviewEntry)
    (hscan : scanRows (regexRows db tool_name) tool_input = .ok (ms, ls))
    (hms : ms ≠ [])
    (hact : ∀ r ∈ ms, r.action = "block" ∨ r.action = "warn")
    (hsol : ∀ r ∈ ms, pyTruthy r.solution = true) :
    ∃ d : RuleDecision,
      check_with_agent db vec_results oracle tool_name tool_input justification = .ok (d, [])
      ∧ d.approved = false
      ∧ ((∃ r ∈ ms, r.action = "block") → d.action = "block")
      ∧ ((∀ r ∈ ms, r.action = "warn") → d.action = "warn")
      ∧ d.comment = pyJoin "\n"
          ((ms.filter (fun r => r.action == "block")).map
            (fun r => "[BLOCK #" ++ Nat.repr r.id ++ "] " ++ r.description ++ " → "
              ++ r.solution.getD "")
          ++ (ms.filter (fun r => r.action == "warn")).map
            (fun r => "[WARN #" ++ Nat.repr r.id ++ "] " ++ r.description ++ " → "
              ++ r.solution.getD "")) := by
  have hreg := check_regex_rules_eq db tool_name tool_input ms ls hscan
  rw [combineMatches_ne ms ls hms] at hreg
  have hres : check_with_agent db vec_results oracle tool_name tool_input justification
      = .ok (⟨false,
          pyOrStr (some (if (ms.filter (fun r => r.action == "block")).isEmpty then "warn"
            else "block")) "block",
          pyOrStr (some (pyJoin "\n"
            ((ms.filter (fun r => r.action == "block")).map (ruleMsg "BLOCK")
              ++ (ms.filter (fun r => r.action == "warn")).map (ruleMsg "WARN")))) "Blocked"⟩,
          []) := by
    unfold check_with_agent
    rw [hreg]
    rfl
  refine ⟨_, hres, rfl, ?_, ?_, ?_⟩
  · rintro ⟨r, hr, hrb⟩
    have hmem : r ∈ ms.filter (fun r => r.action == "block") :=
      List.mem_filter.mpr ⟨hr, by simp [hrb]⟩
    rcases hbe : ms.filter (fun r => r.action == "block") with _ | ⟨c, cs⟩
    · rw [hbe] at hmem
      simp at hmem
    · show pyOrStr (some (if (ms.filter (fun r => r.action == "block")).isEmpty then "warn"
        else "block")) "block" = "block"
      rw [hbe]
      rfl
  · intro hall
    have hbe : ms.filter (fun r => r.action == "block") = [] := by
      apply List.filter_eq_nil_iff.mpr
      intro a ha
      rw [hall a ha]
      decide
    show pyOrStr (some (if (ms.filter (fun r => r.action == "block")).isEmpty then "warn"
      else "block")) "block" = "warn"
    rw [hbe]
    rfl
  · show pyOrStr (some (pyJoin "\n"
        ((ms.filter (fun r => r.action == "block")).map (ruleMsg "BLOCK")
          ++ (ms.filter (fun r => r.action == "warn")).map (ruleMsg "WARN")))) "Blocked" = _
    rw [pyOrStr_some_ne _ _ (messages_ne_empty ms hms hact)]
    have hmapB : (ms.filter (fun r => r.action == "block")).map (ruleMsg "BLOCK")
        = (ms.filter (fun r => r.action == "block")).map
            (fun r => "[BLOCK #" ++ Nat.repr r.id ++ "] " ++ r.description ++ " → "
              ++ r.solution.getD "") := by
      apply map_congr_mem
      intro r hr
      rw [ruleMsg_eq_of_sol "BLOCK" r (hsol r (List.mem_filter.mp hr).1), blockPre]
    have hmapW : (ms.filter (fun r => r.action == "warn")).map (ruleMsg "WARN")
        = (ms.filter (fun r => r.action == "warn")).map
            (fun r => "[WARN #" ++ Nat.repr r.id ++ "] " ++ r.description ++ " → "
              ++ r.solution.getD "") := by
      apply map_congr_mem
      intro r hr
      rw [ruleMsg_eq_of_sol "WARN" r (hsol r (List.mem_filter.mp hr).1), warnPre]
    rw [hmapB, hmapW]

theorem ensure_rules_eq (st : Store) (rule_id : Nat) (text : String) :
    (ensure_rule_embedding st rule_id text).rules = st.rules := by
  unfold ensure_rule_embedding
  split <;> rfl

theorem ensure_has_embedding (st : Store) (rule_id : Nat) (text : String) :
    ((ensure_rule_embedding st rule_id text).embeddings.any (fun p => p.1 == rule_id))
      = true := by
  by_cases h : st.embeddings.any (fun p => p.1 == rule_id) = true
  · simp [ensure_rule_embedding, h]
  · simp only [ensure_rule_embedding, h]
    simp [List.any_append]

theorem process_changes_attempted
    (step : Store → MutationOp → Store × Except String String) (st : Store)
    (changes : List RuleChange) (sid : Option Nat) :
    (process_changes step st changes sid).attempted
      = changes.filterMap (fun c => proposalOp c sid) := by
  induction changes generalizing st with
  | nil => rfl
  | cons c cs ih =>
    rcases h : proposalOp c sid with _ | op
    · simp only [process_changes, h, List.filterMap_cons]
      exact ih st
    · rcases hs : step st op with ⟨st2, r⟩
      cases r with
      | ok txt =>
        simp only [process_changes, h, hs, List.filterMap_cons]
        simpa using ih st2
      | error e =>
        simp only [process_changes, h, hs, List.filterMap_cons]
        simpa using ih st2

/-- C9: the Learning Applier attempts the proposals in list order, regardless of which
executions fail (the attempted-operation list always equals the order-preserving
selection of the proposals); an exception raised while applying one proposal is
recorded — the run records an `Error: <e>` result line for it, bumps no counter, and
the remaining proposals are still processed exactly as they would be on their own; and
a `create` proposal with `type` unset and `rule_action` unset is submitted as a
`semantic` rule with action `warn`, stamped with the originating session id, and
`add_rule` leaves the store with that rule inserted and an embedding ensured for it. -/
theorem claim_C9
    (step : Store → MutationOp → Store × Except String String) (st : Store)
    (changes : List RuleChange) (sid : Option Nat)
    (rid : Option Nat) (pat pats desc prob sol tl prm : Option String) (rsn : String)
    (lr : Option Bool) :
    (process_changes step st changes sid).attempted
      = changes.filterMap (fun c => proposalOp c sid)
    ∧ (∀ (c : RuleChange) (cs : List RuleChange) (st1 st2 : Store) (op : MutationOp)
        (e : String),
        proposalOp c sid = some op →
        step st1 op = (st2, .error e) →
        (process_changes step st1 (c :: cs) sid).results
            = ("Error: " ++ e) :: (process_changes step st2 cs sid).results
        ∧ (process_changes step st1 (c :: cs) sid).attempted
            = op :: (process_changes step st2 cs sid).attempted
        ∧ (process_changes step st1 (c :: cs) sid).stats
            = (process_changes step st2 cs sid).stats)
    ∧ ∃ args : AddRuleArgs,
        proposalOp { action := "create", rule_id := rid, type := none, pattern := pat,
                     patterns := pats, description := desc, problem := prob, solution := sol,
                     tool := tl, rule_action := none, reason := rsn, llm_review := lr,
                     prompt := prm } sid = some (.create args)
        ∧ args.type = "semantic"
        ∧ args.action = "warn"
        ∧ args.source_session_id = sid
        ∧ ∀ st2 : Store,
            ((add_rule st2 args).1.rules.any (fun r =>
                r.id == st2.nextId && r.type == "semantic" && r.action == "warn"
                  && r.source_session_id == sid)) = true
            ∧ ((add_rule st2 args).1.embeddings.any (fun p => p.1 == st2.nextId)) = true := by
  refine ⟨process_changes_attempted step st changes sid, ?_, ?_⟩
  · intro c cs st1 st2 op e h1 h2
    refine ⟨?_, ?_, ?_⟩ <;> simp only [process_changes, h1, h2]
  have hc : lowerStr "create" = "create" := by decide
  refine ⟨create_rule "semantic" (pyOrStr desc "") pat pats prob sol tl "warn" lr prm sid,
    ?_, rfl, rfl, rfl, ?_⟩
  · simp [proposalOp, hc, pyOrStr]
  · intro st2
    constructor
    · simp only [add_rule, create_rule]
      rw [ensure_rules_eq]
      simp [List.any_append]
    · simp only [add_rule, create_rule]
      exact ensure_has_embedding _ _ _

/-- C2 witness: the hypotheses of `claim_C2` hold at the concrete store `demoDb2` and
input `rm -rf /`, and the conclusion follows by applying `claim_C2` there. -/
theorem claim_C2_witness :
    scanRows (regexRows demoDb2 "Bash") "rm -rf /" = .ok (demoMs2, [])
    ∧ demoMs2 ≠ []
    ∧ (∀ r ∈ demoMs2, r.action = "block" ∨ r.action = "warn")
    ∧ (∀ r ∈ demoMs2, pyTruthy r.solution = true)
    ∧ ∃ d : RuleDecision,
        check_with_agent demoDb2 [] demoOracle "Bash" "rm -rf /" none = .ok (d, [])
        ∧ d.approved = false
        ∧ ((∃ r ∈ demoMs2, r.action = "block") → d.action = "block")
        ∧ ((∀ r ∈ demoMs2, r.action = "warn") → d.action = "warn")
        ∧ d.comment = pyJoin "\n"
            ((demoMs2.filter (fun r => r.action == "block")).map
              (fun r => "[BLOCK #" ++ Nat.repr r.id ++ "] " ++ r.description ++ " → "
                ++ r.solution.getD "")
            ++ (demoMs2.filter (fun r => r.action == "warn")).map
              (fun r => "[WARN #" ++ Nat.repr r.id ++ "] " ++ r.description ++ " → "
                ++ r.solution.getD "")) :=
  ⟨rfl, by decide, by decide, by decide,
   claim_C2 demoDb2 [] demoOracle "Bash" "rm -rf /" none demoMs2 [] rfl (by decide)
     (by decide) (by decide)⟩

/-- C3 witness: an empty rule store with a non-matching vector result satisfies the
hypotheses of `claim_C3`, and the conclusion follows by applying `claim_C3` there. -/
theorem claim_C3_witness :
    scanRows (regexRows [] "Bash") "ls -la" = .ok ([], [])
    ∧ (find_semantic_rules [] [(1, ratOf 3 10)] "Bash" "ls -la").filter isClose = []
    ∧ check_with_agent [] [(1, ratOf 3 10)] demoOracle "Bash" "ls -la" none
        = .ok (⟨true, "allow", "No rules to check"⟩, []) :=
  ⟨rfl, rfl, claim_C3 [] [(1, ratOf 3 10)] demoOracle "Bash" "ls -la" none rfl rfl⟩

/-- C4 witness: the hypotheses of `claim_C4` hold at the concrete store `demoDb4` and
input `curl http://example.com`, and the conclusion follows by applying `claim_C4`
there. -/
theorem claim_C4_witness :
    scanRows (regexRows demoDb4 "Bash") "curl http://example.com" = .ok ([], demoLs4)
    ∧ (demoLs4 ≠ [] ∨
        (find_semantic_rules demoDb4 [] "Bash" "curl http://example.com").filter isClose ≠ [])
    ∧ ∃ c : LlmCall,
        check_with_agent demoDb4 [] demoOracle "Bash" "curl http://example.com" none
          = .ok (demoOracle c, [c])
        ∧ c.rules = ((demoLs4.map toLlmRuleRegex
            ++ ((find_semantic_rules demoDb4 [] "Bash" "curl http://example.com").filter
                isClose).map toLlmRuleSem).take 5).map presentRule
        ∧ c.rules.length ≤ 5 :=
  ⟨rfl, Or.inl (by decide),
   claim_C4 demoDb4 [] demoOracle "Bash" "curl http://example.com" none demoLs4 rfl
     (Or.inl (by decide))⟩

/-- C10 witness: the hypotheses of `claim_C10` hold at the concrete store `demoDb10`
and input `echo hi`, and the conclusion follows by applying `claim_C10` there. -/
theorem claim_C10_witness :
    scanRows (regexRows demoDb10 "Bash") "echo hi" = .ok (demoMs10, [])
    ∧ demoMs10 ≠ []
    ∧ (∀ r ∈ demoMs10, r.action = "log")
    ∧ check_with_agent demoDb10 [] demoOracle "Bash" "echo hi" none
        = .ok (⟨false, "warn", "Blocked"⟩, []) :=
  ⟨rfl, by decide, by decide,
   claim_C10 demoDb10 [] demoOracle "Bash" "echo hi" none demoMs10 [] rfl (by decide)
     (by decide)⟩

/-- C9 witness: at the concrete proposal list `[demoChange9, demoDel9]` under the
everywhere-failing executor `demoFailStep`, the hypotheses of the recording conjunct of
`claim_C9` hold, and applying `claim_C9` there shows the failed create is recorded as
an `Error: db locked` line, bumps no counter, and the later delete proposal is still
attempted. -/
theorem claim_C9_witness :
    proposalOp demoChange9 (some 42) = some (.create demoArgs9)
    ∧ demoFailStep demoStore9 (.create demoArgs9) = (demoStore9, .error "db locked")
    ∧ (process_changes demoFailStep demoStore9 [demoChange9, demoDel9] (some 42)).attempted
        = [MutationOp.create demoArgs9, MutationOp.delete 3]
    ∧ ((process_changes demoFailStep demoStore9 [demoChange9, demoDel9] (some 42)).results
          = ("Error: " ++ "db locked")
            :: (process_changes demoFailStep demoStore9 [demoDel9] (some 42)).results
        ∧ (process_changes demoFailStep demoStore9 [demoChange9, demoDel9] (some 42)).attempted
          = MutationOp.create demoArgs9
            :: (process_changes demoFailStep demoStore9 [demoDel9] (some 42)).attempted
        ∧ (process_changes demoFailStep demoStore9 [demoChange9, demoDel9] (some 42)).stats
          = (process_changes demoFailStep demoStore9 [demoDel9] (some 42)).stats) :=
  ⟨rfl, rfl, rfl,
   (claim_C9 demoFailStep demoStore9 [demoChange9, demoDel9] (some 42) none none none none
       none none none none "" none).2.1 demoChange9 [demoDel9] demoStore9 demoStore9
     (MutationOp.create demoArgs9) "db locked" rfl rfl⟩
